import Mathlib

/-!
Verification of the JAN real-time perception pipeline.

The definitions below are a shallow embedding of the TypeScript source under
`src/`: frame diffing and single-frame capture (`src/lib/useScreenCapture.ts`),
the PCM16 audio codec (`AudioRecorder.floatTo16BitPCM` in the same file and the
decoder inside `AudioStreamer.addPCM16`), chained playback scheduling
(`AudioStreamer.scheduleNextBuffer`), grounding-tool selection (the context
service `buildContextualRequest` and the live-API provider), the transcript
accumulator of the live-API provider, and the connect credential guard.

Machine numbers are modelled as `ℕ` / `ℤ` / `ℚ`; a JavaScript out-of-range
array read (which yields `undefined` and makes every subsequent numeric
comparison false via `NaN`) is modelled by an `Option`-returning read whose
`none` case fails the comparison.
-/

namespace JAN

/-! ## Frame differ (useScreenCapture.ts, `compareFrames`, lines 74-101) -/

/-- Per-channel tolerance: `const tolerance = 10` (useScreenCapture.ts:86). -/
def tolerance : ℕ := 10

/-- Match test for the sampled pixel starting at byte `pixelIndex`: each of the
R, G, B channels (bytes `pixelIndex`, `+1`, `+2`; alpha at `+3` ignored) must
differ by at most `tolerance`. An out-of-range read never matches (in JS the
`undefined` value turns the comparison into `NaN <= 10`, which is false). -/
def pixelMatchesAt (currentData previousData : List ℕ) (pixelIndex : ℕ) : Bool :=
  match currentData.get? pixelIndex, previousData.get? pixelIndex,
        currentData.get? (pixelIndex + 1), previousData.get? (pixelIndex + 1),
        currentData.get? (pixelIndex + 2), previousData.get? (pixelIndex + 2) with
  | some cr, some pr, some cg, some pg, some cb, some pb =>
      decide (((cr : ℤ) - (pr : ℤ)).natAbs ≤ tolerance)
        && decide (((cg : ℤ) - (pg : ℤ)).natAbs ≤ tolerance)
        && decide (((cb : ℤ) - (pb : ℤ)).natAbs ≤ tolerance)
  | _, _, _, _, _, _ => false

/-- `compareFrames(currentData, previousData, width, height)` of
useScreenCapture.ts (closing over `config.diffSampleSize`): similarity score in
`[0,1]`, `0` when the buffer lengths differ. The JS division
`matchCount / sampleSize` is rational division here; the JS `NaN` that would
arise for `sampleSize = 0` is outside every theorem below (each assumes a
positive sample size and a nonempty frame, as guaranteed at the call site). -/
def compareFrames (diffSampleSize : ℕ) (currentData previousData : List ℕ)
    (width height : ℕ) : ℚ :=
  if currentData.length ≠ previousData.length then 0
  else
    let sampleSize := min diffSampleSize (width * height)
    let step := width * height / sampleSize
    let matchCount := (List.range sampleSize).countP
      (fun i => pixelMatchesAt currentData previousData (i * step * 4))
    (matchCount : ℚ) / (sampleSize : ℚ)

lemma pixelMatchesAt_self (cur : List ℕ) (idx : ℕ) (h : idx + 2 < cur.length) :
    pixelMatchesAt cur cur idx = true := by
  have h0 : idx < cur.length := by omega
  have h1 : idx + 1 < cur.length := by omega
  rw [pixelMatchesAt, List.get?_eq_get h0, List.get?_eq_get h1, List.get?_eq_get h]
  simp [tolerance]

lemma sampled_index_lt (d w h i : ℕ) (hd : 0 < d) (hwh : 0 < w * h)
    (hi : i < min d (w * h)) :
    i * (w * h / min d (w * h)) * 4 + 2 < 4 * (w * h) := by
  set s := min d (w * h) with hs
  set step := w * h / s with hstep
  have hspos : 0 < s := lt_min hd hwh
  have hsle : s ≤ w * h := min_le_right _ _
  have hstep1 : 1 ≤ step := (Nat.one_le_div_iff hspos).mpr hsle
  have e1 : (s - 1) * step = s * step - 1 * step := Nat.sub_mul s 1 step
  rw [one_mul] at e1
  have h1 : i * step ≤ (s - 1) * step := Nat.mul_le_mul_right step (by omega)
  have h2 : s * step ≤ w * h := by
    calc s * step = step * s := mul_comm _ _
    _ ≤ w * h := Nat.div_mul_le_self (w * h) s
  omega

/-- C6: for identical buffers the similarity is exactly `1`; for buffers of
different lengths it is exactly `0`; otherwise it is `matchCount / sampleSize`
for the sampled per-pixel R/G/B tolerance-10 match test, and it always lies in
`[0, 1]`. The hypotheses are the call-site guarantees of `captureFrame`: a
positive configured sample size, a nonempty frame, and a buffer of exactly
`4 * width * height` RGBA bytes. -/
theorem compareFrames_similarity_spec (d : ℕ) (cur prev : List ℕ) (w h : ℕ)
    (hd : 0 < d) (hwh : 0 < w * h) (hlen : cur.length = 4 * (w * h)) :
    (cur = prev → compareFrames d cur prev w h = 1) ∧
    (cur.length ≠ prev.length → compareFrames d cur prev w h = 0) ∧
    (cur.length = prev.length → compareFrames d cur prev w h =
      ((List.range (min d (w * h))).countP
        (fun i => pixelMatchesAt cur prev (i * (w * h / min d (w * h)) * 4)) : ℚ)
        / ((min d (w * h) : ℕ) : ℚ)) ∧
    (0 ≤ compareFrames d cur prev w h ∧ compareFrames d cur prev w h ≤ 1) := by
  have hspos : 0 < min d (w * h) := lt_min hd hwh
  refine ⟨?_, ?_, ?_, ?_⟩
  · intro hcp
    subst hcp
    simp only [compareFrames, ne_eq, not_true_eq_false, if_false, ite_false,
      not_false_eq_true, if_neg]
    have hall : ∀ i ∈ List.range (min d (w * h)),
        pixelMatchesAt cur cur (i * (w * h / min d (w * h)) * 4) = true := by
      intro i hi
      exact pixelMatchesAt_self cur _
        (hlen ▸ sampled_index_lt d w h i hd hwh (List.mem_range.mp hi))
    rw [List.countP_eq_length.mpr hall, List.length_range]
    exact div_self (by exact_mod_cast hspos.ne')
  · intro hne
    rw [compareFrames, if_pos hne]
  · intro heq
    simp only [compareFrames, heq, ne_eq, not_true_eq_false, if_false, ite_false]
  · simp only [compareFrames]
    split
    · exact ⟨le_refl 0, by norm_num⟩
    · constructor
      · exact div_nonneg (Nat.cast_nonneg _) (Nat.cast_nonneg _)
      · rw [div_le_one (by exact_mod_cast hspos)]
        have hcp := List.countP_le_length
          (fun i => pixelMatchesAt cur prev (i * (w * h / min d (w * h)) * 4))
          (l := List.range (min d (w * h)))
        rw [List.length_range] at hcp
        exact_mod_cast hcp

/-- Witness for `compareFrames_similarity_spec` at a concrete 1×1 frame:
identical buffers score `1`, and buffers of different lengths score `0`. -/
theorem compareFrames_similarity_spec_witness :
    compareFrames 5 [1, 2, 3, 4] [1, 2, 3, 4] 1 1 = 1 ∧
    compareFrames 5 [1, 2, 3, 4] [9, 9, 9] 1 1 = 0 := by
  have h1 := compareFrames_similarity_spec 5 [1, 2, 3, 4] [1, 2, 3, 4] 1 1
    (by decide) (by decide) (by decide)
  have h2 := compareFrames_similarity_spec 5 [1, 2, 3, 4] [9, 9, 9] 1 1
    (by decide) (by decide) (by decide)
  exact ⟨h1.1 rfl, h2.2.1 (by decide)⟩

/-! ## Screen capture (useScreenCapture.ts, `captureFrame`, lines 141-205) -/

/-- `ScreenCaptureConfig` (types.ts lines 115-128); `jpegQuality` is a fixed
rational or `none` for the content-adaptive `'auto'` mode. -/
structure ScreenCaptureConfig where
  minIntervalMs : ℕ
  maxIntervalMs : ℕ
  idleTimeoutMs : ℕ
  diffThreshold : ℚ
  jpegQuality : Option ℚ
  diffSampleSize : ℕ
deriving DecidableEq

/-- `DEFAULT_SCREEN_CAPTURE_CONFIG` (types.ts lines 130-137). -/
def DEFAULT_SCREEN_CAPTURE_CONFIG : ScreenCaptureConfig :=
  { minIntervalMs := 500, maxIntervalMs := 2000, idleTimeoutMs := 3000,
    diffThreshold := 0.95, jpegQuality := some 0.75, diffSampleSize := 100 }

/-- The video element as `captureFrame` reads it: its reported dimensions and
the RGBA bytes that `ctx.getImageData` returns for the current frame after
`drawImage`. -/
structure VideoSource where
  videoWidth : ℕ
  videoHeight : ℕ
  pixels : List ℕ
deriving DecidableEq

/-- `CapturedFrame` (types.ts lines 106-113). The `data` field holds the
frame's pixel bytes; the browser's JPEG/base64 encoding
(`canvas.toDataURL`) is an opaque primitive and is left abstract. -/
structure CapturedFrame where
  data : List ℕ
  width : ℕ
  height : ℕ
  timestamp : ℕ
  isKeyFrame : Bool
  similarity : ℚ
deriving DecidableEq

/-- The mutable refs of the `useScreenCapture` hook that `captureFrame`
reads and writes: the previous-frame buffer and the two counters. -/
structure CaptureState where
  previousFrameData : Option (List ℕ)
  frameCount : ℕ
  skippedCount : ℕ
deriving DecidableEq

/-- `getAdaptiveQuality` (useScreenCapture.ts lines 107-136): fixed quality
when configured, otherwise an edge-density heuristic over 50 sampled
adjacent-pixel pairs (indices 1 to 48). Out-of-range reads never count as an
edge (JS `NaN > 30` is false). -/
def getAdaptiveQuality (jpegQuality : Option ℚ) (imageData : List ℕ)
    (width height : ℕ) : ℚ :=
  match jpegQuality with
  | some q => q
  | none =>
    let sampleSize : ℕ := 50
    let step := width * height / sampleSize
    let edgeCount := ((List.range (sampleSize - 2)).map (· + 1)).countP fun i =>
      match imageData.get? (i * step * 4), imageData.get? ((i * step + 1) * 4) with
      | some a, some b => decide (30 < ((a : ℤ) - (b : ℤ)).natAbs)
      | _, _ => false
    let edgeRatio : ℚ := (edgeCount : ℚ) / (sampleSize : ℚ)
    if edgeRatio > 0.3 then 0.85
    else if edgeRatio > 0.15 then 0.75
    else 0.65

/-- Shared acceptance path of `captureFrame` (useScreenCapture.ts lines
182-204): store the current pixels as the new comparison baseline, bump the
accepted-frame counter and build the returned frame. -/
def acceptFrame (currentData : List ℕ) (width height now : ℕ) (similarity : ℚ)
    (isKeyFrame : Bool) (st : CaptureState) : Option CapturedFrame × CaptureState :=
  (some { data := currentData, width := width, height := height, timestamp := now,
          isKeyFrame := isKeyFrame, similarity := similarity },
   { st with previousFrameData := some currentData, frameCount := st.frameCount + 1 })

/-- `captureFrame` (useScreenCapture.ts lines 141-205) as a pure function of
the video source and the hook's mutable state. A missing video element or one
reporting zero dimensions returns `null` and leaves the state untouched. With
a stored previous frame, `isKeyFrame = similarity < diffThreshold`; a
non-keyframe is skipped (skip counter bumped, `null` returned, baseline kept);
otherwise the frame is accepted via `acceptFrame`. -/
def captureFrame (config : ScreenCaptureConfig) (video : Option VideoSource)
    (now : ℕ) (st : CaptureState) : Option CapturedFrame × CaptureState :=
  match video with
  | none => (none, st)
  | some v =>
    if v.videoWidth = 0 ∨ v.videoHeight = 0 then (none, st)
    else
      match st.previousFrameData with
      | some prev =>
        let similarity :=
          compareFrames config.diffSampleSize v.pixels prev v.videoWidth v.videoHeight
        let isKeyFrame := decide (similarity < config.diffThreshold)
        if isKeyFrame then
          acceptFrame v.pixels v.videoWidth v.videoHeight now similarity isKeyFrame st
        else
          (none, { st with skippedCount := st.skippedCount + 1 })
      | none =>
        acceptFrame v.pixels v.videoWidth v.videoHeight now 0 true st

/-- C1: with a stored previous frame, a similarity at or above `diffThreshold`
makes `captureFrame` return `null`, bump the skip counter by exactly 1 and
leave the accepted-frame counter alone; a similarity below the threshold
returns a frame, bumps the accepted-frame counter by exactly 1 and leaves the
skip counter alone. -/
theorem captureFrame_threshold_behavior (config : ScreenCaptureConfig)
    (v : VideoSource) (now : ℕ) (st : CaptureState) (prev : List ℕ)
    (hprev : st.previousFrameData = some prev)
    (hw : 0 < v.videoWidth) (hh : 0 < v.videoHeight) :
    (config.diffThreshold ≤
        compareFrames config.diffSampleSize v.pixels prev v.videoWidth v.videoHeight →
      (captureFrame config (some v) now st).1 = none ∧
      (captureFrame config (some v) now st).2.skippedCount = st.skippedCount + 1 ∧
      (captureFrame config (some v) now st).2.frameCount = st.frameCount) ∧
    (compareFrames config.diffSampleSize v.pixels prev v.videoWidth v.videoHeight <
        config.diffThreshold →
      (∃ f, (captureFrame config (some v) now st).1 = some f) ∧
      (captureFrame config (some v) now st).2.frameCount = st.frameCount + 1 ∧
      (captureFrame config (some v) now st).2.skippedCount = st.skippedCount) := by
  have hdim : ¬(v.videoWidth = 0 ∨ v.videoHeight = 0) := by omega
  constructor
  · intro hsim
    simp [captureFrame, hprev, hdim, acceptFrame, not_lt.mpr hsim]
  · intro hsim
    simp [captureFrame, hprev, hdim, acceptFrame, hsim]

/-- Witness for `captureFrame_threshold_behavior`: a 1×1 frame identical to
the stored baseline has similarity `1 ≥ 0.92`, so with `diffThreshold = 0.92`
the capture is rejected, the skip counter becomes 1 and the accepted-frame
counter stays 0. -/
theorem captureFrame_threshold_behavior_witness :
    (captureFrame { DEFAULT_SCREEN_CAPTURE_CONFIG with diffThreshold := 0.92 }
        (some ⟨1, 1, [7, 7, 7, 255]⟩) 0
        ⟨some [7, 7, 7, 255], 0, 0⟩).1 = none ∧
    (captureFrame { DEFAULT_SCREEN_CAPTURE_CONFIG with diffThreshold := 0.92 }
        (some ⟨1, 1, [7, 7, 7, 255]⟩) 0
        ⟨some [7, 7, 7, 255], 0, 0⟩).2.skippedCount = 0 + 1 ∧
    (captureFrame { DEFAULT_SCREEN_CAPTURE_CONFIG with diffThreshold := 0.92 }
        (some ⟨1, 1, [7, 7, 7, 255]⟩) 0
        ⟨some [7, 7, 7, 255], 0, 0⟩).2.frameCount = 0 := by
  exact (captureFrame_threshold_behavior
    { DEFAULT_SCREEN_CAPTURE_CONFIG with diffThreshold := 0.92 }
    ⟨1, 1, [7, 7, 7, 255]⟩ 0 ⟨some [7, 7, 7, 255], 0, 0⟩ [7, 7, 7, 255]
    rfl (by decide) (by decide)).1
    (by norm_num [compareFrames, List.range_succ, pixelMatchesAt,
      DEFAULT_SCREEN_CAPTURE_CONFIG])

/-- C2: the comparison baseline is updated only on acceptance. Whenever
`captureFrame` returns `null` the stored previous-pixel buffer (and with it
the whole comparison baseline) is exactly what it was before the call, and
whenever it returns a frame the stored buffer becomes that frame's pixels. -/
theorem captureFrame_baseline_update (config : ScreenCaptureConfig)
    (video : Option VideoSource) (now : ℕ) (st : CaptureState) :
    ((captureFrame config video now st).1 = none →
      (captureFrame config video now st).2.previousFrameData = st.previousFrameData) ∧
    (∀ v f, video = some v → (captureFrame config video now st).1 = some f →
      (captureFrame config video now st).2.previousFrameData = some v.pixels) := by
  constructor
  · intro hnone
    match video with
    | none => rfl
    | some v =>
      by_cases hdim : v.videoWidth = 0 ∨ v.videoHeight = 0
      · simp [captureFrame, hdim]
      · match hp : st.previousFrameData with
        | some prev =>
          by_cases hsim : compareFrames config.diffSampleSize v.pixels prev
              v.videoWidth v.videoHeight < config.diffThreshold
          · simp [captureFrame, hp, hdim, hsim, acceptFrame] at hnone
          · simp [captureFrame, hp, hdim, hsim, acceptFrame]
        | none => simp [captureFrame, hp, hdim, acceptFrame] at hnone
  · intro v f hv hsome
    subst hv
    by_cases hdim : v.videoWidth = 0 ∨ v.videoHeight = 0
    · simp [captureFrame, hdim] at hsome
    · match hp : st.previousFrameData with
      | some prev =>
        by_cases hsim : compareFrames config.diffSampleSize v.pixels prev
            v.videoWidth v.videoHeight < config.diffThreshold
        · simp [captureFrame, hp, hdim, hsim, acceptFrame]
        · simp [captureFrame, hp, hdim, hsim, acceptFrame] at hsome
      | none => simp [captureFrame, hp, hdim, acceptFrame]

/-- Witness for `captureFrame_baseline_update`: rejecting a near-identical 1×1
frame (similarity `1 ≥ 0.95`) keeps the old baseline; accepting a first frame
(no baseline yet) stores that frame's pixels. -/
theorem captureFrame_baseline_update_witness :
    (captureFrame DEFAULT_SCREEN_CAPTURE_CONFIG (some ⟨1, 1, [7, 7, 7, 255]⟩) 0
        ⟨some [7, 7, 7, 255], 3, 4⟩).2.previousFrameData = some [7, 7, 7, 255] ∧
    (captureFrame DEFAULT_SCREEN_CAPTURE_CONFIG (some ⟨1, 1, [9, 9, 9, 255]⟩) 0
        ⟨none, 0, 0⟩).2.previousFrameData = some [9, 9, 9, 255] := by
  constructor
  · exact (captureFrame_baseline_update DEFAULT_SCREEN_CAPTURE_CONFIG
      (some ⟨1, 1, [7, 7, 7, 255]⟩) 0 ⟨some [7, 7, 7, 255], 3, 4⟩).1
      (by norm_num [captureFrame, acceptFrame, compareFrames, List.range_succ,
        pixelMatchesAt, DEFAULT_SCREEN_CAPTURE_CONFIG])
  · exact (captureFrame_baseline_update DEFAULT_SCREEN_CAPTURE_CONFIG
      (some ⟨1, 1, [9, 9, 9, 255]⟩) 0 ⟨none, 0, 0⟩).2
      ⟨1, 1, [9, 9, 9, 255]⟩ ⟨[9, 9, 9, 255], 1, 1, 0, true, 0⟩ rfl rfl

/-- C10: every frame `captureFrame` actually returns has `isKeyFrame = true`:
a frame that would not be a keyframe is rejected (`null`) instead of being
returned with `isKeyFrame = false`. -/
theorem captureFrame_isKeyFrame_true (config : ScreenCaptureConfig)
    (video : Option VideoSource) (now : ℕ) (st : CaptureState) (f : CapturedFrame)
    (h : (captureFrame config video now st).1 = some f) : f.isKeyFrame = true := by
  match video with
  | none => simp [captureFrame] at h
  | some v =>
    by_cases hdim : v.videoWidth = 0 ∨ v.videoHeight = 0
    · simp [captureFrame, hdim] at h
    · match hp : st.previousFrameData with
      | some prev =>
        by_cases hsim : compareFrames config.diffSampleSize v.pixels prev
            v.videoWidth v.videoHeight < config.diffThreshold
        · simp [captureFrame, hp, hdim, hsim, acceptFrame] at h
          rw [← h]
        · simp [captureFrame, hp, hdim, hsim, acceptFrame] at h
      | none =>
        simp [captureFrame, hp, hdim, acceptFrame] at h
        rw [← h]

/-- Witness for `captureFrame_isKeyFrame_true`: the frame accepted from a
fresh (baseline-free) 1×1 capture carries `isKeyFrame = true`. -/
theorem captureFrame_isKeyFrame_true_witness :
    CapturedFrame.isKeyFrame ⟨[9, 9, 9, 255], 1, 1, 0, true, 0⟩ = true := by
  exact captureFrame_isKeyFrame_true DEFAULT_SCREEN_CAPTURE_CONFIG
    (some ⟨1, 1, [9, 9, 9, 255]⟩) 0 ⟨none, 0, 0⟩ ⟨[9, 9, 9, 255], 1, 1, 0, true, 0⟩
    rfl

/-! ## PCM16 codec (AudioRecorder.floatTo16BitPCM, useScreenCapture.ts lines
380-388; decoder inside AudioStreamer.addPCM16, src/unnamed/part_005 lines
123-131). Samples are modelled as rationals; every concrete value used below
is exactly representable as an IEEE float32 and its JS double arithmetic is
exact, so the counterexample carries over to the source verbatim. -/

/-- Per-sample clamp `Math.max(-1, Math.min(1, input[i]))`. -/
def clampSample (x : ℚ) : ℚ := max (-1) (min 1 x)

/-- Truncation toward zero, as `DataView.setInt16` applies to a non-integral
JS number (ToIntegerOrInfinity). -/
def jsTrunc (q : ℚ) : ℤ := if 0 ≤ q then ⌊q⌋ else ⌈q⌉

/-- One sample of `floatTo16BitPCM`: clamp, then
`s = s < 0 ? s * 0x8000 : s * 0x7FFF`, truncated to an integer by the
`setInt16` write. -/
def floatSampleToInt16 (x : ℚ) : ℤ :=
  jsTrunc (if clampSample x < 0 then clampSample x * 32768 else clampSample x * 32767)

/-- The two bytes `setInt16(offset, v, true)` stores: the two's-complement
16-bit image of `v`, low byte first. -/
def int16ToBytesLE (v : ℤ) : List ℕ :=
  [(v % 65536).toNat % 256, (v % 65536).toNat / 256]

/-- `floatTo16BitPCM(input)`: each sample in order becomes two little-endian
bytes of the output buffer. -/
def floatTo16BitPCM : List ℚ → List ℕ
  | [] => []
  | x :: xs => int16ToBytesLE (floatSampleToInt16 x) ++ floatTo16BitPCM xs

/-- `DataView.getInt16(2*i, true)`: rebuild the signed 16-bit value from the
little-endian byte pair. -/
def bytesToInt16LE (lo hi : ℕ) : ℤ :=
  if lo % 256 + 256 * (hi % 256) < 32768 then ((lo % 256 + 256 * (hi % 256) : ℕ) : ℤ)
  else ((lo % 256 + 256 * (hi % 256) : ℕ) : ℤ) - 65536

/-- The decoding loop of `AudioStreamer.addPCM16`: for each of
`chunk.length / 2` sample positions, read the little-endian int16 and divide
by 32768. -/
def pcm16ToFloat (chunk : List ℕ) : List ℚ :=
  (List.range (chunk.length / 2)).map fun i =>
    ((bytesToInt16LE (chunk.getD (2 * i) 0) (chunk.getD (2 * i + 1) 0) : ℤ) : ℚ) / 32768

lemma bytesToInt16LE_round (v : ℤ) (h1 : -32768 ≤ v) (h2 : v ≤ 32767) :
    bytesToInt16LE ((v % 65536).toNat % 256) ((v % 65536).toNat / 256) = v := by
  simp only [bytesToInt16LE]
  split <;> omega

lemma floatSampleToInt16_range (x : ℚ) :
    -32768 ≤ floatSampleToInt16 x ∧ floatSampleToInt16 x ≤ 32767 := by
  have hsl : (-1 : ℚ) ≤ clampSample x := le_max_left _ _
  have hsu : clampSample x ≤ 1 := max_le (by norm_num) (min_le_left _ _)
  rw [floatSampleToInt16, jsTrunc]
  by_cases hneg : clampSample x < 0
  · rw [if_pos hneg, if_neg (by nlinarith)]
    constructor
    · have := Int.lt_ceil.mpr
        (show ((-32769 : ℤ) : ℚ) < clampSample x * 32768 by push_cast; nlinarith)
      omega
    · have : ⌈clampSample x * 32768⌉ ≤ (0 : ℤ) :=
        Int.ceil_le.mpr (by push_cast; nlinarith)
      omega
  · rw [if_neg hneg, if_pos (by nlinarith)]
    push_neg at hneg
    constructor
    · have : (0 : ℤ) ≤ ⌊clampSample x * 32767⌋ :=
        Int.floor_nonneg.mpr (by nlinarith)
      omega
    · calc ⌊clampSample x * 32767⌋ ≤ ⌊(32767 : ℚ)⌋ :=
        Int.floor_le_floor (by nlinarith)
      _ = 32767 := by norm_num

lemma floatSampleToInt16_close (x : ℚ) (h1 : -1 ≤ x) (h2 : x ≤ 1) :
    |((floatSampleToInt16 x : ℤ) : ℚ) / 32768 - x| < 2 / 32768 := by
  have hc : clampSample x = x := by rw [clampSample, min_eq_right h2, max_eq_right h1]
  rw [floatSampleToInt16, jsTrunc, hc]
  by_cases hx : x < 0
  · rw [if_pos hx, if_neg (by nlinarith)]
    have hle := Int.le_ceil (x * 32768)
    have hlt := Int.ceil_lt_add_one (x * 32768)
    rw [abs_lt]
    constructor <;> linarith
  · rw [if_neg hx, if_pos (by push_neg at hx; nlinarith)]
    push_neg at hx
    have hle := Int.floor_le (x * 32767)
    have hlt := Int.lt_floor_add_one (x * 32767)
    rw [abs_lt]
    constructor <;> linarith

lemma pcm16ToFloat_cons (a b : ℕ) (rest : List ℕ) :
    pcm16ToFloat (a :: b :: rest) =
      ((bytesToInt16LE a b : ℤ) : ℚ) / 32768 :: pcm16ToFloat rest := by
  have hlen : (a :: b :: rest).length / 2 = rest.length / 2 + 1 := by
    simp only [List.length_cons]
    omega
  rw [pcm16ToFloat, hlen, List.range_succ_eq_map, List.map_cons, List.map_map]
  congr 1

lemma pcm16_roundtrip_eq (xs : List ℚ) :
    pcm16ToFloat (floatTo16BitPCM xs) =
      xs.map fun x => ((floatSampleToInt16 x : ℤ) : ℚ) / 32768 := by
  induction xs with
  | nil => rfl
  | cons x xs ih =>
    have hr := floatSampleToInt16_range x
    rw [floatTo16BitPCM, int16ToBytesLE, List.cons_append, List.cons_append,
      List.nil_append, pcm16ToFloat_cons, ih, List.map_cons,
      bytesToInt16LE_round _ hr.1 hr.2]

/-- C5 (amended): decoding the encoding reproduces every in-range sample with
absolute error strictly below two quantization steps (`2 / 32768`); the
claimed one-step bound fails for positive samples near `+1`, see
`pcm_roundtrip_claim_counterexample`. -/
theorem pcm_roundtrip_within_two_steps (xs : List ℚ)
    (h : ∀ x ∈ xs, -1 ≤ x ∧ x ≤ 1) :
    (pcm16ToFloat (floatTo16BitPCM xs)).length = xs.length ∧
    ∀ i, i < xs.length →
      |(pcm16ToFloat (floatTo16BitPCM xs)).getD i 0 - xs.getD i 0| < 2 / 32768 := by
  rw [pcm16_roundtrip_eq]
  refine ⟨by simp, ?_⟩
  intro i hi
  have hg : xs.get? i = some (xs.get ⟨i, hi⟩) := List.get?_eq_get hi
  rw [List.getD_eq_get?, List.getD_eq_get?, List.get?_map, hg]
  simp only [Option.map_some', Option.getD_some]
  exact floatSampleToInt16_close _ (h _ (xs.get_mem _ _)).1 (h _ (xs.get_mem _ _)).2

/-- Witness for `pcm_roundtrip_within_two_steps` on the concrete buffer
`[1, -1, 1/2]`. -/
theorem pcm_roundtrip_within_two_steps_witness :
    (pcm16ToFloat (floatTo16BitPCM [(1 : ℚ), -1, 1 / 2])).length =
      ([(1 : ℚ), -1, 1 / 2]).length ∧
    ∀ i, i < ([(1 : ℚ), -1, 1 / 2]).length →
      |(pcm16ToFloat (floatTo16BitPCM [(1 : ℚ), -1, 1 / 2])).getD i 0 -
        ([(1 : ℚ), -1, 1 / 2]).getD i 0| < 2 / 32768 := by
  refine pcm_roundtrip_within_two_steps [(1 : ℚ), -1, 1 / 2] ?_
  intro x hx
  rcases List.mem_cons.mp hx with rfl | hx
  · norm_num
  rcases List.mem_cons.mp hx with rfl | hx
  · norm_num
  rcases List.mem_cons.mp hx with rfl | hx
  · norm_num
  · simp at hx

/-- Counterexample to C5 as stated: the in-range sample `65535 / 65536`
(representable exactly as a float32, with exact JS double arithmetic) is
encoded as `⌊32767 * 65535 / 65536⌋ = 32766` and decoded as `32766 / 32768`,
an absolute error of `3 / 65536 = 1.5 / 32768 > 1 / 32768`. -/
theorem pcm_roundtrip_claim_counterexample :
    ((-1 : ℚ) ≤ 65535 / 65536 ∧ (65535 / 65536 : ℚ) ≤ 1) ∧
    1 / 32768 <
      |(pcm16ToFloat (floatTo16BitPCM [(65535 / 65536 : ℚ)])).getD 0 0 -
        (65535 / 65536 : ℚ)| := by
  constructor
  · constructor <;> norm_num
  · rw [pcm16_roundtrip_eq]
    have hclamp : clampSample (65535 / 65536 : ℚ) = 65535 / 65536 := by
      rw [clampSample, min_eq_right (by norm_num), max_eq_right (by norm_num)]
    have harg : (if (65535 / 65536 : ℚ) < 0 then (65535 / 65536 : ℚ) * 32768
        else (65535 / 65536 : ℚ) * 32767) = 32766 + 32769 / 65536 := by
      rw [if_neg (by norm_num)]
      norm_num
    have henc : floatSampleToInt16 (65535 / 65536 : ℚ) = 32766 := by
      rw [floatSampleToInt16, hclamp, harg, jsTrunc, if_pos (by norm_num)]
      rw [Int.floor_eq_iff]
      constructor <;> norm_num
    simp only [List.map_cons, List.map_nil, henc, List.getD_cons_zero]
    rw [abs_sub_comm, abs_of_nonneg (by norm_num)]
    norm_num

/-! ## Grounding-tool selection (src/unnamed/part_001 `buildContextualRequest`
step 4 and `isRagAvailable`; src/unnamed/part_004 the provider's config
effect). -/

/-- Document lifecycle states (types.ts line 38). -/
inductive DocStatus where
  | uploading
  | indexing
  | ready
  | failed
deriving DecidableEq

/-- `UploadedDocument` (types.ts lines 31-41, metadata omitted as unused). -/
structure UploadedDocument where
  uri : String
  name : String
  mimeType : String
  size : ℕ
  fileSearchStoreId : Option String
  documentName : Option String
  status : Option DocStatus
  error : Option String
deriving DecidableEq

/-- `FileSearchStore` (types.ts lines 43-48). -/
structure FileSearchStore where
  name : String
  displayName : String
  documentCount : Option ℕ
  totalSizeBytes : Option ℕ
deriving DecidableEq

/-- `ModelTool` (src/unnamed/part_001 lines 82-89): exactly one of the three
tool kinds per entry. -/
inductive ModelTool where
  | googleSearch
  | fileSearch (fileSearchStoreNames : List String) (metadataFilter : Option String)
  | codeExecution
deriving DecidableEq

/-- Whether a tool entry is a file-search (private knowledge base) tool. -/
def isFileSearchTool : ModelTool → Bool
  | .fileSearch _ _ => true
  | _ => false

/-- Whether a tool entry is a general web-search tool. -/
def isWebSearchTool : ModelTool → Bool
  | .googleSearch => true
  | _ => false

/-- `hasRagDocs` of the provider effect (src/unnamed/part_004 line 59):
`activeStore && documents.some(d => d.status === 'ready')`. -/
def hasRagDocs (activeStore : Option FileSearchStore)
    (documents : List UploadedDocument) : Bool :=
  activeStore.isSome && documents.any fun d => d.status == some DocStatus.ready

/-- The tools array the live-session config builder constructs
(src/unnamed/part_004 lines 61-63): file search over the active store when
RAG documents are ready, otherwise google search. -/
def liveSessionTools (activeStore : Option FileSearchStore)
    (documents : List UploadedDocument) : List ModelTool :=
  match activeStore with
  | some store =>
    if documents.any (fun d => d.status == some DocStatus.ready) then
      [ModelTool.fileSearch [store.name] none]
    else [ModelTool.googleSearch]
  | none => [ModelTool.googleSearch]

/-- `isRagAvailable` (src/unnamed/part_001 lines 284-289):
`!!(store && documents?.some(d => d.status === 'ready'))`. -/
def isRagAvailable (store : Option FileSearchStore)
    (documents : Option (List UploadedDocument)) : Bool :=
  store.isSome &&
    (documents.map fun ds => ds.any fun d => d.status == some DocStatus.ready).getD false

/-- The tools portion (step 4) of `buildContextualRequest`
(src/unnamed/part_001 lines 204-227): push one file-search tool — with the
metadata filter only when it is a truthy (non-empty) string — when a store
exists and a document is ready, otherwise one google-search tool. -/
def buildContextualRequestTools (ragStore : Option FileSearchStore)
    (documents : Option (List UploadedDocument))
    (metadataFilter : Option String) : List ModelTool :=
  match ragStore with
  | some store =>
    if (documents.map fun ds => ds.any fun d => d.status == some DocStatus.ready).getD
        false then
      [ModelTool.fileSearch [store.name]
        (match metadataFilter with
         | some f => if f ≠ "" then some f else none
         | none => none)]
    else [ModelTool.googleSearch]
  | none => [ModelTool.googleSearch]

/-- C3: both tool builders always emit exactly one tool, never a file-search
and a web-search entry together; with a store and a ready document the array
is file-search only, otherwise web-search only. -/
theorem tools_mutually_exclusive (store : Option FileSearchStore)
    (docs : List UploadedDocument) (docsOpt : Option (List UploadedDocument))
    (mf : Option String) :
    ((liveSessionTools store docs).length = 1 ∧
      (buildContextualRequestTools store docsOpt mf).length = 1) ∧
    (¬((liveSessionTools store docs).any isFileSearchTool = true ∧
        (liveSessionTools store docs).any isWebSearchTool = true)) ∧
    (¬((buildContextualRequestTools store docsOpt mf).any isFileSearchTool = true ∧
        (buildContextualRequestTools store docsOpt mf).any isWebSearchTool = true)) ∧
    (hasRagDocs store docs = true →
      (liveSessionTools store docs).all isFileSearchTool = true) ∧
    (hasRagDocs store docs = false →
      (liveSessionTools store docs).all isWebSearchTool = true) ∧
    (isRagAvailable store docsOpt = true →
      (buildContextualRequestTools store docsOpt mf).all isFileSearchTool = true) ∧
    (isRagAvailable store docsOpt = false →
      (buildContextualRequestTools store docsOpt mf).all isWebSearchTool = true) := by
  cases store with
  | none =>
    simp [liveSessionTools, buildContextualRequestTools, hasRagDocs, isRagAvailable,
      isFileSearchTool, isWebSearchTool]
  | some s =>
    cases docsOpt with
    | none =>
      cases hb1 : docs.any (fun d => d.status == some DocStatus.ready) <;>
        simp [liveSessionTools, buildContextualRequestTools, hasRagDocs,
          isRagAvailable, isFileSearchTool, isWebSearchTool, hb1]
    | some ds =>
      cases hb1 : docs.any (fun d => d.status == some DocStatus.ready) <;>
        cases hb2 : ds.any (fun d => d.status == some DocStatus.ready) <;>
          simp [liveSessionTools, buildContextualRequestTools, hasRagDocs,
            isRagAvailable, isFileSearchTool, isWebSearchTool, hb1, hb2]

/-! ## Transcript accumulator (src/unnamed/part_004, the provider's
`textDelta` and `turnComplete` handlers, lines 124-147). -/

/-- `CompletedTurn` (src/unnamed/part_004 lines 9-13). -/
structure CompletedTurn where
  id : String
  text : String
  timestamp : ℕ
deriving DecidableEq

/-- The provider state the two handlers read and write: the accumulator ref,
its mirrored state value, the streaming flag, the turn-id counter and the
last completed turn. -/
structure TranscriptState where
  streamingTextRef : String
  streamingText : String
  isStreaming : Bool
  turnIdRef : ℕ
  lastCompletedTurn : Option CompletedTurn
deriving DecidableEq

/-- The two inbound events the transcript logic reacts to; `turnComplete`
carries the wall-clock instant `Date.now()` would return. -/
inductive LiveTextEvent where
  | textDelta (delta : String)
  | turnComplete (now : ℕ)

/-- The `textDelta` handler: mark streaming, append to the accumulator ref
and mirror it into state. Emits no completed turn. -/
def handleTextDelta (delta : String) (st : TranscriptState) :
    TranscriptState × List CompletedTurn :=
  ({ st with isStreaming := true,
             streamingTextRef := st.streamingTextRef ++ delta,
             streamingText := st.streamingTextRef ++ delta }, [])

/-- The `turnComplete` handler: when the accumulator is non-empty, bump the
turn-id counter and emit a completed turn; in every case clear the
accumulator, its mirror, and the streaming flag. -/
def handleTurnComplete (now : ℕ) (st : TranscriptState) :
    TranscriptState × List CompletedTurn :=
  if st.streamingTextRef ≠ "" then
    ({ st with turnIdRef := st.turnIdRef + 1,
               lastCompletedTurn := some
                 { id := "live-turn-" ++ toString (st.turnIdRef + 1),
                   text := st.streamingTextRef, timestamp := now },
               streamingTextRef := "", streamingText := "", isStreaming := false },
     [{ id := "live-turn-" ++ toString (st.turnIdRef + 1),
        text := st.streamingTextRef, timestamp := now }])
  else
    ({ st with streamingTextRef := "", streamingText := "", isStreaming := false }, [])

/-- Dispatch one inbound event. -/
def handleLiveTextEvent : LiveTextEvent → TranscriptState → TranscriptState × List CompletedTurn
  | LiveTextEvent.textDelta d, st => handleTextDelta d st
  | LiveTextEvent.turnComplete now, st => handleTurnComplete now st

/-- Deliver a sequence of events in order, collecting every emitted
completed turn. -/
def runLiveTextEvents : List LiveTextEvent → TranscriptState → TranscriptState × List CompletedTurn
  | [], st => (st, [])
  | e :: es, st =>
    let r1 := handleLiveTextEvent e st
    let r2 := runLiveTextEvents es r1.1
    (r2.1, r1.2 ++ r2.2)

/-- C4: from an empty accumulator, `textDelta "A"`, `textDelta "B"`,
`turnComplete` emit exactly one completed turn with text `"AB"` and clear the
accumulator; a further `turnComplete` emits nothing more (the total emission
over all four events is still that single turn) while leaving
`isStreaming = false` and `streamingText` empty. -/
theorem transcript_turn_lifecycle (st : TranscriptState) (t1 t2 : ℕ)
    (hempty : st.streamingTextRef = "") :
    ((runLiveTextEvents
        [LiveTextEvent.textDelta "A", LiveTextEvent.textDelta "B",
         LiveTextEvent.turnComplete t1] st).2.map CompletedTurn.text = ["AB"] ∧
      (runLiveTextEvents
        [LiveTextEvent.textDelta "A", LiveTextEvent.textDelta "B",
         LiveTextEvent.turnComplete t1] st).1.streamingTextRef = "" ∧
      (runLiveTextEvents
        [LiveTextEvent.textDelta "A", LiveTextEvent.textDelta "B",
         LiveTextEvent.turnComplete t1] st).1.streamingText = "" ∧
      (runLiveTextEvents
        [LiveTextEvent.textDelta "A", LiveTextEvent.textDelta "B",
         LiveTextEvent.turnComplete t1] st).1.isStreaming = false) ∧
    ((runLiveTextEvents
        [LiveTextEvent.textDelta "A", LiveTextEvent.textDelta "B",
         LiveTextEvent.turnComplete t1, LiveTextEvent.turnComplete t2] st).2.map
          CompletedTurn.text = ["AB"] ∧
      (runLiveTextEvents
        [LiveTextEvent.textDelta "A", LiveTextEvent.textDelta "B",
         LiveTextEvent.turnComplete t1, LiveTextEvent.turnComplete t2] st).1.isStreaming
          = false ∧
      (runLiveTextEvents
        [LiveTextEvent.textDelta "A", LiveTextEvent.textDelta "B",
         LiveTextEvent.turnComplete t1, LiveTextEvent.turnComplete t2] st).1.streamingText
          = "") := by
  simp [runLiveTextEvents, handleLiveTextEvent, handleTextDelta, handleTurnComplete,
    hempty]

/-- Witness for `transcript_turn_lifecycle` from the provider's initial state
(empty accumulator, counter 0, no completed turn). -/
theorem transcript_turn_lifecycle_witness :
    ((runLiveTextEvents
        [LiveTextEvent.textDelta "A", LiveTextEvent.textDelta "B",
         LiveTextEvent.turnComplete 5] ⟨"", "", false, 0, none⟩).2.map
          CompletedTurn.text = ["AB"] ∧
      (runLiveTextEvents
        [LiveTextEvent.textDelta "A", LiveTextEvent.textDelta "B",
         LiveTextEvent.turnComplete 5] ⟨"", "", false, 0, none⟩).1.streamingTextRef = "" ∧
      (runLiveTextEvents
        [LiveTextEvent.textDelta "A", LiveTextEvent.textDelta "B",
         LiveTextEvent.turnComplete 5] ⟨"", "", false, 0, none⟩).1.streamingText = "" ∧
      (runLiveTextEvents
        [LiveTextEvent.textDelta "A", LiveTextEvent.textDelta "B",
         LiveTextEvent.turnComplete 5] ⟨"", "", false, 0, none⟩).1.isStreaming = false) ∧
    ((runLiveTextEvents
        [LiveTextEvent.textDelta "A", LiveTextEvent.textDelta "B",
         LiveTextEvent.turnComplete 5, LiveTextEvent.turnComplete 9]
        ⟨"", "", false, 0, none⟩).2.map CompletedTurn.text = ["AB"] ∧
      (runLiveTextEvents
        [LiveTextEvent.textDelta "A", LiveTextEvent.textDelta "B",
         LiveTextEvent.turnComplete 5, LiveTextEvent.turnComplete 9]
        ⟨"", "", false, 0, none⟩).1.isStreaming = false ∧
      (runLiveTextEvents
        [LiveTextEvent.textDelta "A", LiveTextEvent.textDelta "B",
         LiveTextEvent.turnComplete 5, LiveTextEvent.turnComplete 9]
        ⟨"", "", false, 0, none⟩).1.streamingText = "") :=
  transcript_turn_lifecycle ⟨"", "", false, 0, none⟩ 5 9 rfl

/-! ## Connect credential guard (src/unnamed/part_004 `connect` lines 160-168
and `getApiKey` line 53; src/unnamed/part_005 `GenAILiveClient.connect` lines
32-34). -/

/-- `LiveStatus` (types.ts line 103). -/
inductive LiveStatus where
  | disconnected
  | connecting
  | connected
  | error
deriving DecidableEq

/-- JS `String.prototype.trim`: drop whitespace from both ends, modelled over
the character list. -/
def jsTrim (s : String) : String :=
  String.mk (((s.data.dropWhile Char.isWhitespace).reverse.dropWhile
    Char.isWhitespace).reverse)

/-- The key sanitizer `process.env.API_KEY?.replace(/["']/g, "").trim()`:
drop every double quote (code 34) and single quote (code 39), then trim
surrounding whitespace. -/
def sanitizeApiKey (raw : String) : String :=
  jsTrim (String.mk (raw.data.filter fun c =>
    !(c == Char.ofNat 34 || c == Char.ofNat 39)))

/-- `getApiKey` (src/unnamed/part_004 line 53): `none` models an unset
environment variable. -/
def getApiKey (apiKeyEnv : Option String) : Option String :=
  apiKeyEnv.map sanitizeApiKey

/-- The provider's `connect` (src/unnamed/part_004 lines 160-168) as a
function from the environment credential and the current status to the new
status together with whether a transport connection was attempted: a missing
or empty key (JS falsiness of `!key`) logs and returns without touching the
status; otherwise the status becomes `connecting` and
`clientRef.current?.connect(key)` is invoked. -/
def liveConnect (apiKeyEnv : Option String) (status : LiveStatus) :
    LiveStatus × Bool :=
  match getApiKey apiKeyEnv with
  | none => (status, false)
  | some key => if key = "" then (status, false) else (LiveStatus.connecting, true)

/-- The credential guard of `GenAILiveClient.connect` (src/unnamed/part_005
line 33): an empty key throws `"API Key required"` before any client or
session is created; the successful branch (transport session setup, a browser
network primitive) is abstracted to `Except.ok`. -/
def clientConnect (apiKey : String) : Except String Unit :=
  if apiKey = "" then Except.error "API Key required" else Except.ok ()

/-- C9: with an empty (or unset) credential, `connect` attempts no transport
connection and leaves the status exactly as it was — in particular a
disconnected session stays disconnected and never reaches `connecting` — and
the client-level guard reports the failure as a synchronous
`"API Key required"` error. -/
theorem connect_empty_credential (env : Option String) (st : LiveStatus)
    (h : getApiKey env = none ∨ getApiKey env = some "") :
    liveConnect env st = (st, false) ∧
    (st = LiveStatus.disconnected →
      (liveConnect env st).1 = LiveStatus.disconnected) ∧
    clientConnect "" = Except.error "API Key required" := by
  rcases h with h | h <;>
    simp [liveConnect, clientConnect, h]

/-- Witness for `connect_empty_credential`: the environment value `"  \"\"  "`
sanitizes to the empty key, so a disconnected session stays disconnected with
no connection attempt. -/
theorem connect_empty_credential_witness :
    liveConnect (some "  \"\"  ") LiveStatus.disconnected =
      (LiveStatus.disconnected, false) ∧
    (LiveStatus.disconnected = LiveStatus.disconnected →
      (liveConnect (some "  \"\"  ") LiveStatus.disconnected).1 =
        LiveStatus.disconnected) ∧
    clientConnect "" = Except.error "API Key required" :=
  connect_empty_credential (some "  \"\"  ") LiveStatus.disconnected
    (Or.inr (by decide))

/-! ## Playback scheduling (src/unnamed/part_005 `AudioStreamer`, lines
143-167). `scheduleNextBuffer` pops the queue head, plays it on a buffer
source whose duration is `sampleCount / sampleRate`, and its `onended`
callback re-invokes `scheduleNextBuffer`; under a fake clock where `onended`
fires exactly at the buffer's end and `source.start(0)` begins at the
current instant, the produced schedule of (start, duration) pairs is the
recursion below. -/

def scheduleNextBuffer (sampleRate : ℚ) : List (List ℚ) → ℚ → List (ℚ × ℚ)
  | [], _t => []
  | audioData :: rest, t =>
    (t, (audioData.length : ℚ) / sampleRate) ::
      scheduleNextBuffer sampleRate rest (t + (audioData.length : ℚ) / sampleRate)

lemma scheduleNextBuffer_length (sampleRate : ℚ) (queue : List (List ℚ)) :
    ∀ t : ℚ, (scheduleNextBuffer sampleRate queue t).length = queue.length := by
  induction queue with
  | nil => intro t; rfl
  | cons a rest ih =>
    intro t
    simp [scheduleNextBuffer, ih]

lemma scheduleNextBuffer_chain (sampleRate : ℚ) (queue : List (List ℚ)) :
    ∀ (t : ℚ) (i : ℕ), i + 1 < (scheduleNextBuffer sampleRate queue t).length →
      ((scheduleNextBuffer sampleRate queue t).getD (i + 1) (0, 0)).1 =
        ((scheduleNextBuffer sampleRate queue t).getD i (0, 0)).1 +
          ((scheduleNextBuffer sampleRate queue t).getD i (0, 0)).2 := by
  induction queue with
  | nil => intro t i hi; simp [scheduleNextBuffer] at hi
  | cons a rest ih =>
    intro t i hi
    match i with
    | 0 =>
      match rest with
      | [] => simp [scheduleNextBuffer] at hi
      | b :: rest2 => simp [scheduleNextBuffer]
    | Nat.succ j =>
      have hj : j + 1 < (scheduleNextBuffer sampleRate rest
          (t + (a.length : ℚ) / sampleRate)).length := by
        simp only [scheduleNextBuffer, List.length_cons] at hi
        omega
      simpa [scheduleNextBuffer] using
        ih (t + (a.length : ℚ) / sampleRate) j hj

/-- C7: decoding each inbound PCM16 chunk and playing the queue through the
completion-chained scheduler yields one buffer per chunk, in arrival order,
with every buffer starting exactly where the previous one ends — no gap and
no overlap — whatever the chunk sizes and the initial clock instant. -/
theorem playback_gap_free (chunks : List (List ℕ)) (t0 : ℚ) :
    (scheduleNextBuffer 24000 (chunks.map pcm16ToFloat) t0).length = chunks.length ∧
    ∀ i, i + 1 < (scheduleNextBuffer 24000 (chunks.map pcm16ToFloat) t0).length →
      ((scheduleNextBuffer 24000 (chunks.map pcm16ToFloat) t0).getD (i + 1) (0, 0)).1 =
        ((scheduleNextBuffer 24000 (chunks.map pcm16ToFloat) t0).getD i (0, 0)).1 +
          ((scheduleNextBuffer 24000 (chunks.map pcm16ToFloat) t0).getD i (0, 0)).2 := by
  refine ⟨?_, ?_⟩
  · rw [scheduleNextBuffer_length, List.length_map]
  · intro i hi
    exact scheduleNextBuffer_chain 24000 (chunks.map pcm16ToFloat) t0 i hi

/-! ## Audio-capture start and the audio graph (useScreenCapture.ts
`AudioRecorder.start`/`stop`, lines 330-378; src/unnamed/part_004
`startRecording`, lines 176-206). Live (allocated and not yet released)
resources are counted per kind; `recorderStart` models the success path of
`AudioRecorder.start`. -/

/-- Counts of live audio resources: the 24 kHz playback context created by
`startRecording`, and the microphone streams, 16 kHz recorder contexts,
source nodes and processor nodes created by `AudioRecorder.start`. -/
structure AudioResources where
  playbackContexts : ℕ
  micStreams : ℕ
  recorderContexts : ℕ
  sourceNodes : ℕ
  processorNodes : ℕ
deriving DecidableEq

/-- Which of the four `AudioRecorder` handle fields are currently non-null. -/
structure AudioRecorderState where
  stream : Bool
  audioContext : Bool
  source : Bool
  processor : Bool
deriving DecidableEq

/-- `AudioRecorder.start` (success path): acquires a fresh `getUserMedia`
stream, a fresh `AudioContext`, a fresh source node and a fresh processor
node, overwriting the four handle fields. It performs no existence check on
them (`_rec` is ignored) and neither stops, closes nor disconnects whatever
the fields pointed to before. -/
def recorderStart (_rec : AudioRecorderState) (res : AudioResources) :
    AudioRecorderState × AudioResources :=
  (⟨true, true, true, true⟩,
   { res with micStreams := res.micStreams + 1,
              recorderContexts := res.recorderContexts + 1,
              sourceNodes := res.sourceNodes + 1,
              processorNodes := res.processorNodes + 1 })

/-- `AudioRecorder.stop` (lines 362-378): disconnect source and processor
when both are present, stop the stream's tracks, close the context, null all
four fields. Only the currently-held handles are released. -/
def recorderStop (rec : AudioRecorderState) (res : AudioResources) :
    AudioRecorderState × AudioResources :=
  let res1 := if rec.processor && rec.source then
      { res with sourceNodes := res.sourceNodes - 1,
                 processorNodes := res.processorNodes - 1 }
    else res
  let res2 := if rec.stream then { res1 with micStreams := res1.micStreams - 1 }
    else res1
  let res3 := if rec.audioContext then
      { res2 with recorderContexts := res2.recorderContexts - 1 }
    else res2
  (⟨false, false, false, false⟩, res3)

/-- The orchestrator-level refs `startRecording` guards with existence
checks, plus the `isRecording` flag. -/
structure OrchestratorAudioState where
  audioContextRef : Bool
  audioStreamerRef : Bool
  audioRecorderRef : Option AudioRecorderState
  isRecording : Bool
deriving DecidableEq

/-- The provider state before any recording: all refs null. -/
def freshOrchestrator : OrchestratorAudioState := ⟨false, false, none, false⟩

/-- No audio resource allocated yet. -/
def noAudioResources : AudioResources := ⟨0, 0, 0, 0, 0⟩

/-- `startRecording` (src/unnamed/part_004 lines 176-206, success path): the
playback context, streamer and recorder objects are created only when their
refs are null (the existence checks), but `audioRecorderRef.current.start()`
is then invoked unconditionally, which allocates a fresh internal audio
graph on every call. -/
def startRecording (st : OrchestratorAudioState) (res : AudioResources) :
    OrchestratorAudioState × AudioResources :=
  let res1 := if st.audioContextRef then res
    else { res with playbackContexts := res.playbackContexts + 1 }
  let rec0 := st.audioRecorderRef.getD ⟨false, false, false, false⟩
  let started := recorderStart rec0 res1
  ({ audioContextRef := true, audioStreamerRef := true,
     audioRecorderRef := some started.1, isRecording := true }, started.2)

/-- Counterexample to C8 as stated: two `startRecording` calls from the fresh
state, with no intervening stop, leave two live microphone streams, two
recorder audio contexts, two source nodes and two processor nodes (plus the
one guarded playback context) — not exactly one of each as the claim says. -/
theorem duplicate_audio_graph_counterexample :
    (startRecording (startRecording freshOrchestrator noAudioResources).1
        (startRecording freshOrchestrator noAudioResources).2).2 =
      { playbackContexts := 1, micStreams := 2, recorderContexts := 2,
        sourceNodes := 2, processorNodes := 2 } ∧
    (startRecording (startRecording freshOrchestrator noAudioResources).1
        (startRecording freshOrchestrator noAudioResources).2).2.micStreams ≠ 1 := by
  decide

/-- C8 (amended): the existence checks guard only the orchestrator's object
handles — a second `startRecording` creates no second playback context,
streamer or recorder object — but `AudioRecorder.start` itself is unguarded:
each call allocates a fresh microphone stream, recorder context, source node
and processor node without releasing the previous ones, so two starts from a
fresh state add two of each to the live-resource counts. -/
theorem startRecording_resource_accounting (res : AudioResources) :
    (startRecording (startRecording freshOrchestrator res).1
        (startRecording freshOrchestrator res).2).2.playbackContexts =
      res.playbackContexts + 1 ∧
    (startRecording (startRecording freshOrchestrator res).1
        (startRecording freshOrchestrator res).2).2.micStreams =
      res.micStreams + 2 ∧
    (startRecording (startRecording freshOrchestrator res).1
        (startRecording freshOrchestrator res).2).2.recorderContexts =
      res.recorderContexts + 2 ∧
    (startRecording (startRecording freshOrchestrator res).1
        (startRecording freshOrchestrator res).2).2.sourceNodes =
      res.sourceNodes + 2 ∧
    (startRecording (startRecording freshOrchestrator res).1
        (startRecording freshOrchestrator res).2).2.processorNodes =
      res.processorNodes + 2 ∧
    (startRecording freshOrchestrator res).1.audioRecorderRef.isSome = true ∧
    (startRecording (startRecording freshOrchestrator res).1
        (startRecording freshOrchestrator res).2).1.audioRecorderRef =
      (startRecording freshOrchestrator res).1.audioRecorderRef := by
  simp [startRecording, recorderStart, freshOrchestrator]

end JAN
